import Mathlib

/-!
Shallow embedding of the x86-64 dev backend
(`src/compiler/gen_dev/src/x86_64/mod.rs`) and proofs about it.

External collaborators that are not part of the repository source under
`src/` (the `asm` instruction-encoder submodule, `roc_mono`'s `Literal`
and `Layout`, `roc_module`'s `Symbol`, `target_lexicon`'s triple /
calling-convention resolution, and the arena) are modelled from the
spec, as noted on each such definition.
-/

namespace X8664

/-- The sixteen x86-64 general-purpose registers, as in `asm::Register`
(used by `mod.rs` through `use asm::Register`). -/
inductive Register
  | RAX | RBX | RCX | RDX | RBP | RSP | RSI | RDI
  | R8 | R9 | R10 | R11 | R12 | R13 | R14 | R15
deriving DecidableEq, Repr

/-- `const RETURN_REG: Register = Register::RAX;` -/
def RETURN_REG : Register := Register.RAX

/-- Modelled from the spec: `roc_module::symbol::Symbol` is not under
`src/`; the spec says a Symbol is "an opaque, globally unique identity"
that is "comparable, hashable". Modelled as a natural number. -/
abbrev Symbol := Nat

/-- Modelled from the spec: `roc_mono::ir::Literal` is not under `src/`;
the spec's data model says a literal is "a compile-time-known constant
(currently: signed integer)". The Rust payload is `i64`; an `Int` value
stands for it (the backend never does arithmetic on it, only signed
comparisons, so the embedding is exact on the i64 range). -/
inductive Literal
  | int (v : Int)
deriving DecidableEq, Repr

/-- Modelled from the spec: `roc_mono::layout::Layout` is not under
`src/`; the spec only says a layout records "size/representation" and
the backend never inspects it, so a single placeholder constructor
suffices. -/
inductive Layout
  | int64
deriving DecidableEq, Repr

/-- `enum SymbolStorage<'a> { Literal(..), Register(.., ..), Stack(.., ..) }` -/
inductive SymbolStorage
  | literal (l : Literal)
  | register (r : Register) (lay : Layout)
  | stack (offset : Nat) (lay : Layout)
deriving DecidableEq, Repr

/-- Modelled from the spec: the `asm` submodule (the Instruction
Encoder) is not under `src/`. The spec describes it as "pure functions
mapping an abstract operation (move, push, pop, return, etc.) plus
operand registers/immediates to the exact byte sequence", appending to
a caller-supplied buffer. The byte buffer is modelled as a list of
these abstract instructions, one element per encoder call; distinct
operations (in particular the 32-bit-immediate and 64-bit-immediate
move encodings, which the spec requires to be distinct) map to distinct
elements. `movImm32` carries the full `Int` value: the source casts
`val as i32` only under a guard that makes the cast value-preserving. -/
inductive Instr
  | movImm32 (dst : Register) (imm : Int)
  | movImm64 (dst : Register) (imm : Int)
  | pushReg (r : Register)
  | popReg (r : Register)
  | movRegReg (dst src : Register)
  | retNear
deriving DecidableEq, Repr

/-- `asm::mov_register64bit_immediate32bit` (modelled from the spec, see
`Instr`): appends the 32-bit-immediate move encoding. -/
def mov_register64bit_immediate32bit (buf : List Instr) (dst : Register) (imm : Int) :
    List Instr :=
  buf ++ [Instr.movImm32 dst imm]

/-- `asm::mov_register64bit_immediate64bit` (modelled from the spec):
appends the 64-bit-immediate move encoding. -/
def mov_register64bit_immediate64bit (buf : List Instr) (dst : Register) (imm : Int) :
    List Instr :=
  buf ++ [Instr.movImm64 dst imm]

/-- `asm::push_register64bit` (modelled from the spec). -/
def push_register64bit (buf : List Instr) (r : Register) : List Instr :=
  buf ++ [Instr.pushReg r]

/-- `asm::pop_register64bit` (modelled from the spec). -/
def pop_register64bit (buf : List Instr) (r : Register) : List Instr :=
  buf ++ [Instr.popReg r]

/-- `asm::mov_register64bit_register64bit` (modelled from the spec). -/
def mov_register64bit_register64bit (buf : List Instr) (dst src : Register) : List Instr :=
  buf ++ [Instr.movRegReg dst src]

/-- `asm::ret_near` (modelled from the spec). -/
def ret_near (buf : List Instr) : List Instr :=
  buf ++ [Instr.retNear]

/-- `crate::Relocation`. `finalize` only ever returns the empty slice of
relocations, so no constructor is needed. -/
inductive Relocation

/-- The errors `load_symbol` can surface. In the source they are
`String`s built with `format!("Unknown return symbol: {}", sym)` and
`format!("symbol, {:?}, is not yet implemented", x)`; the constructors
carry the same payloads (the symbol, resp. the storage that was found),
which is exactly the data the format strings render. -/
inductive CgError
  | unknownSymbol (sym : Symbol)
  | notYetImplemented (storage : SymbolStorage)
deriving DecidableEq, Repr

/-- Modelled from the spec: `target_lexicon::CallingConvention` is not
under `src/`. The source matches on `SystemV` and `WindowsFastcall` and
treats every other resolved convention uniformly; `other` carries the
name the catch-all arm would render. -/
inductive CallingConvention
  | systemV
  | windowsFastcall
  | other (name : String)
deriving DecidableEq, Repr

/-- Rust `Debug` rendering of the `Result<CallingConvention, _>` value
that the catch-all arm of `new` formats with `{:?}` (modelled from the
spec; only the catch-all cases are ever rendered). -/
def ccResultDebug : Except String CallingConvention → String
  | Except.ok CallingConvention.systemV => "Ok(SystemV)"
  | Except.ok CallingConvention.windowsFastcall => "Ok(WindowsFastcall)"
  | Except.ok (CallingConvention.other name) => "Ok(" ++ name ++ ")"
  | Except.error e => "Err(" ++ e ++ ")"

/-- `struct X86_64Backend<'a>`. The `env` field (arena handle) carries
no observable state and is omitted; `last_seen_map` maps symbols to
`*const Stmt` program points (`roc_mono::ir::Stmt` is not under `src/`;
the spec calls them "program point of last use"), modelled as naturals.
`symbols_map` (a hash map) is modelled as a lookup function.
`shadow_space_size` and `red_zone_size` are `u8` (≤ 255) and
`stack_size` is `u16` (≤ 65535) in the source; the only arithmetic on
them, `shadow as u16 + red as u16`, is at most 510 and cannot overflow,
so plain naturals embed them exactly. -/
structure X86_64Backend where
  buf : List Instr
  leaf_proc : Bool
  last_seen_map : List (Symbol × Nat)
  symbols_map : Symbol → Option SymbolStorage
  gp_param_regs : List Register
  caller_saved_regs : List Register
  callee_saved_regs : List Register
  shadow_space_size : Nat
  red_zone_size : Nat
  stack_size : Nat

/-- `fn new(env, target) -> Result<Self, String>`. The target triple's
`default_calling_convention()` (external, `target_lexicon`) returns a
`Result`; we take that resolved result as the input. -/
def new (cc : Except String CallingConvention) : Except String X86_64Backend :=
  match cc with
  | Except.ok CallingConvention.systemV =>
      Except.ok
        { leaf_proc := true
          buf := []
          last_seen_map := []
          symbols_map := fun _ => none
          gp_param_regs :=
            [Register.RDI, Register.RSI, Register.RDX, Register.RCX,
             Register.R8, Register.R9]
          caller_saved_regs :=
            [Register.RAX, Register.RCX, Register.RDX, Register.RSP,
             Register.RSI, Register.RDI, Register.R8, Register.R9,
             Register.R10, Register.R11]
          callee_saved_regs :=
            [Register.RBX, Register.RBP, Register.R12, Register.R13,
             Register.R14, Register.R15]
          shadow_space_size := 0
          red_zone_size := 128
          stack_size := 0 }
  | Except.ok CallingConvention.windowsFastcall =>
      Except.ok
        { leaf_proc := true
          buf := []
          last_seen_map := []
          symbols_map := fun _ => none
          gp_param_regs := [Register.RCX, Register.RDX, Register.R8, Register.R9]
          caller_saved_regs :=
            [Register.RAX, Register.RCX, Register.RDX, Register.R8,
             Register.R9, Register.R10, Register.R11]
          callee_saved_regs :=
            [Register.RBX, Register.RBP, Register.RSI, Register.RSP,
             Register.RDI, Register.R12, Register.R13, Register.R14,
             Register.R15]
          shadow_space_size := 32
          red_zone_size := 0
          stack_size := 0 }
  | x => Except.error ("unsupported backend: " ++ ccResultDebug x)

/-- `fn reset(&mut self)`: clears `symbols_map` and `buf`. -/
def reset (s : X86_64Backend) : X86_64Backend :=
  { s with symbols_map := fun _ => none, buf := [] }

/-- `fn set_symbol_to_lit(&mut self, sym, lit)`: inserts/overwrites the
symbol's storage with `SymbolStorage::Literal(lit)`. -/
def set_symbol_to_lit (s : X86_64Backend) (sym : Symbol) (lit : Literal) :
    X86_64Backend :=
  { s with
    symbols_map := fun k => if k = sym then some (SymbolStorage.literal lit) else s.symbols_map k }

/-- `fn free_symbol(&mut self, sym)`: removes the symbol's entry. -/
def free_symbol (s : X86_64Backend) (sym : Symbol) : X86_64Backend :=
  { s with
    symbols_map := fun k => if k = sym then none else s.symbols_map k }

/-- `fn requires_stack_modification(&self) -> bool`:
`!self.leaf_proc || self.stack_size < self.shadow_space_size as u16 + self.red_zone_size as u16`.
Note the comparison in the source is `<`, exactly as written here. -/
def requires_stack_modification (s : X86_64Backend) : Bool :=
  !s.leaf_proc || decide (s.stack_size < s.shadow_space_size + s.red_zone_size)

/-- `fn load_symbol(&mut self, dst, sym) -> Result<(), String>`: looks
the symbol up in `symbols_map`; an integer literal emits a
move-immediate (32-bit encoding when `val <= i32::MAX as i64 && val >=
i32::MIN as i64`, 64-bit otherwise), any other storage errs with the
not-yet-implemented message, a missing entry errs with the
unknown-symbol message. Returns the updated state with the result. -/
def load_symbol (s : X86_64Backend) (dst : Register) (sym : Symbol) :
    X86_64Backend × Except CgError Unit :=
  match s.symbols_map sym with
  | some (SymbolStorage.literal (Literal.int x)) =>
      if x ≤ 2147483647 ∧ -2147483648 ≤ x then
        ({ s with buf := mov_register64bit_immediate32bit s.buf dst x }, Except.ok ())
      else
        ({ s with buf := mov_register64bit_immediate64bit s.buf dst x }, Except.ok ())
  | some st => (s, Except.error (CgError.notYetImplemented st))
  | none => (s, Except.error (CgError.unknownSymbol sym))

/-- `fn return_symbol(&mut self, sym)`: `self.load_symbol(RETURN_REG, sym)`. -/
def return_symbol (s : X86_64Backend) (sym : Symbol) :
    X86_64Backend × Except CgError Unit :=
  load_symbol s RETURN_REG sym

/-- `fn finalize(&mut self) -> Result<(&[u8], &[Relocation]), String>`:
fresh output; prologue (`push rbp`; `mov rbp, rsp`) if
`requires_stack_modification`; the accumulated body; epilogue
(`pop rbp`) under the same test; `ret`; always `Ok` with an empty
relocation list. -/
def finalize (s : X86_64Backend) : Except String (List Instr × List Relocation) :=
  let out0 : List Instr := []
  let out1 :=
    if requires_stack_modification s then
      mov_register64bit_register64bit (push_register64bit out0 Register.RBP)
        Register.RBP Register.RSP
    else out0
  let out2 := out1 ++ s.buf
  let out3 :=
    if requires_stack_modification s then pop_register64bit out2 Register.RBP
    else out2
  Except.ok (ret_near out3, [])

/-- The System-V backend in its initial state; `new (.ok .systemV)`
returns exactly this value (`new_systemV_eq`). Shared by concrete
witnesses below. -/
def sysvBackend : X86_64Backend :=
  { leaf_proc := true
    buf := []
    last_seen_map := []
    symbols_map := fun _ => none
    gp_param_regs :=
      [Register.RDI, Register.RSI, Register.RDX, Register.RCX,
       Register.R8, Register.R9]
    caller_saved_regs :=
      [Register.RAX, Register.RCX, Register.RDX, Register.RSP,
       Register.RSI, Register.RDI, Register.R8, Register.R9,
       Register.R10, Register.R11]
    callee_saved_regs :=
      [Register.RBX, Register.RBP, Register.R12, Register.R13,
       Register.R14, Register.R15]
    shadow_space_size := 0
    red_zone_size := 128
    stack_size := 0 }

theorem new_systemV_eq : new (Except.ok CallingConvention.systemV) = Except.ok sysvBackend :=
  rfl

/-- C1: the claim says the frame-necessity predicate is false exactly
when the function is a leaf and its stack usage fits within
shadow-space plus red-zone, and true when usage exceeds that sum. The
source compares with `<` instead of `>`: at the System-V initial state
(leaf, stack usage 0, which fits within shadow+red-zone = 128) the
predicate is true, and at a leaf state whose stack usage 200 exceeds
128 it is false — both opposite to the claim (and to the source's own
`leaf_proc` comment). -/
theorem c1_requires_frame_reversed :
    sysvBackend.leaf_proc = true ∧
    sysvBackend.stack_size = 0 ∧
    sysvBackend.shadow_space_size + sysvBackend.red_zone_size = 128 ∧
    requires_stack_modification sysvBackend = true ∧
    ({ sysvBackend with stack_size := 200 }).leaf_proc = true ∧
    requires_stack_modification { sysvBackend with stack_size := 200 } = false :=
  ⟨rfl, rfl, rfl, rfl, rfl, rfl⟩

/-- C2: binding symbol 0 to literal 42 on the fresh System-V backend and
returning it succeeds and the body is the move-immediate-32 into the
return register, but `finalize` wraps it in the prologue/epilogue
(because `requires_stack_modification` is true at leaf/stack-0, see
`c1_requires_frame_reversed`), contradicting the claim's "no prologue
or epilogue bytes". The relocation list is empty as claimed. -/
theorem c2_scenario_emits_prologue :
    (return_symbol (set_symbol_to_lit sysvBackend 0 (Literal.int 42)) 0).2 = Except.ok () ∧
    (return_symbol (set_symbol_to_lit sysvBackend 0 (Literal.int 42)) 0).1.buf =
      [Instr.movImm32 RETURN_REG 42] ∧
    finalize (return_symbol (set_symbol_to_lit sysvBackend 0 (Literal.int 42)) 0).1 =
      Except.ok ([Instr.pushReg Register.RBP, Instr.movRegReg Register.RBP Register.RSP,
                  Instr.movImm32 RETURN_REG 42, Instr.popReg Register.RBP,
                  Instr.retNear], []) :=
  ⟨rfl, rfl, rfl⟩

/-- C3: loading a symbol bound to an integer literal `v` in the i64
range emits the 32-bit-immediate encoding exactly when
`i32::MIN ≤ v ≤ i32::MAX`, and the 64-bit-immediate encoding otherwise;
either way it succeeds and only appends to the buffer. -/
theorem c3_immediate_width (s : X86_64Backend) (dst : Register) (sym : Symbol) (v : Int)
    (hlo : -9223372036854775808 ≤ v) (hhi : v ≤ 9223372036854775807)
    (hs : s.symbols_map sym = some (SymbolStorage.literal (Literal.int v))) :
    ((-2147483648 ≤ v ∧ v ≤ 2147483647) →
      load_symbol s dst sym =
        ({ s with buf := s.buf ++ [Instr.movImm32 dst v] }, Except.ok ())) ∧
    (¬(-2147483648 ≤ v ∧ v ≤ 2147483647) →
      load_symbol s dst sym =
        ({ s with buf := s.buf ++ [Instr.movImm64 dst v] }, Except.ok ())) := by
  constructor
  · intro h
    unfold load_symbol
    rw [hs]
    dsimp only
    rw [if_pos ⟨h.2, h.1⟩]
    rfl
  · intro h
    unfold load_symbol
    rw [hs]
    dsimp only
    rw [if_neg (fun hc => h ⟨hc.2, hc.1⟩)]
    rfl

/-- Witness for C3 at `v = 9223372036854775807` (i64 max): the 64-bit
encoding is emitted. -/
theorem c3_immediate_width_witness :
    load_symbol (set_symbol_to_lit sysvBackend 0 (Literal.int 9223372036854775807))
        RETURN_REG 0 =
      ({ set_symbol_to_lit sysvBackend 0 (Literal.int 9223372036854775807) with
          buf := (set_symbol_to_lit sysvBackend 0 (Literal.int 9223372036854775807)).buf
              ++ [Instr.movImm64 RETURN_REG 9223372036854775807] },
        Except.ok ()) :=
  (c3_immediate_width _ RETURN_REG 0 9223372036854775807 (by decide) (by decide) rfl).2
    (by decide)

/-- C4: a symbol with no entry in the symbols map — never bound, or
bound and then released — makes `load_symbol` (and `return_symbol`)
fail with the unknown-symbol error naming it, leaving the state (in
particular the buffer) unchanged; `free_symbol` after
`set_symbol_to_lit` indeed removes the entry, and loading it then fails
the same way. -/
theorem c4_unknown_symbol (s : X86_64Backend) (dst : Register) (sym : Symbol)
    (lit : Literal) (h : s.symbols_map sym = none) :
    load_symbol s dst sym = (s, Except.error (CgError.unknownSymbol sym)) ∧
    return_symbol s sym = (s, Except.error (CgError.unknownSymbol sym)) ∧
    (free_symbol (set_symbol_to_lit s sym lit) sym).symbols_map sym = none ∧
    load_symbol (free_symbol (set_symbol_to_lit s sym lit) sym) dst sym =
      (free_symbol (set_symbol_to_lit s sym lit) sym,
        Except.error (CgError.unknownSymbol sym)) := by
  refine ⟨?_, ?_, ?_, ?_⟩
  · unfold load_symbol
    rw [h]
  · unfold return_symbol load_symbol
    rw [h]
  · simp [free_symbol, set_symbol_to_lit]
  · unfold load_symbol
    simp [free_symbol, set_symbol_to_lit]

/-- Witness for C4 on the fresh System-V backend with symbol 5. -/
theorem c4_unknown_symbol_witness :
    load_symbol sysvBackend RETURN_REG 5 =
      (sysvBackend, Except.error (CgError.unknownSymbol 5)) ∧
    return_symbol sysvBackend 5 =
      (sysvBackend, Except.error (CgError.unknownSymbol 5)) ∧
    (free_symbol (set_symbol_to_lit sysvBackend 5 (Literal.int 7)) 5).symbols_map 5 = none ∧
    load_symbol (free_symbol (set_symbol_to_lit sysvBackend 5 (Literal.int 7)) 5)
        RETURN_REG 5 =
      (free_symbol (set_symbol_to_lit sysvBackend 5 (Literal.int 7)) 5,
        Except.error (CgError.unknownSymbol 5)) :=
  c4_unknown_symbol sysvBackend RETURN_REG 5 (Literal.int 7) rfl

/-- C5: a symbol whose recorded storage is a `Register` or `Stack`
variant makes `load_symbol` fail with the not-yet-implemented error
carrying that storage, leaving the state (and buffer) unchanged. -/
theorem c5_not_yet_implemented (s : X86_64Backend) (dst : Register) (sym : Symbol)
    (st : SymbolStorage) (h : s.symbols_map sym = some st)
    (hk : (∃ r lay, st = SymbolStorage.register r lay) ∨
          (∃ o lay, st = SymbolStorage.stack o lay)) :
    load_symbol s dst sym = (s, Except.error (CgError.notYetImplemented st)) := by
  unfold load_symbol
  rw [h]
  rcases hk with ⟨r, lay, rfl⟩ | ⟨o, lay, rfl⟩ <;> rfl

/-- A backend whose symbol 3 is recorded as register storage; used to
witness C5. -/
def regStorageBackend : X86_64Backend :=
  { sysvBackend with
    symbols_map := fun k =>
      if k = 3 then some (SymbolStorage.register Register.RBX Layout.int64) else none }

/-- Witness for C5 on register storage at symbol 3. -/
theorem c5_not_yet_implemented_witness :
    load_symbol regStorageBackend RETURN_REG 3 =
      (regStorageBackend,
        Except.error (CgError.notYetImplemented
          (SymbolStorage.register Register.RBX Layout.int64))) :=
  c5_not_yet_implemented regStorageBackend RETURN_REG 3
    (SymbolStorage.register Register.RBX Layout.int64) rfl
    (Or.inl ⟨Register.RBX, Layout.int64, rfl⟩)

/-- C6: construction resolves the calling convention: System-V yields
the six integer parameter registers in ABI order, a ten-register
caller-saved set, a six-register callee-saved set, zero shadow space
and a 128-byte red zone; Windows fast-call yields four parameter
registers, 32-byte shadow space and zero red zone; any other resolved
convention fails with an "unsupported backend" error naming it; every
successful case starts with `leaf_proc` true, empty buffer, empty
symbols map and `stack_size` 0. -/
theorem c6_construction :
    (∃ b, new (Except.ok CallingConvention.systemV) = Except.ok b ∧
      b.gp_param_regs =
        [Register.RDI, Register.RSI, Register.RDX, Register.RCX,
         Register.R8, Register.R9] ∧
      b.caller_saved_regs.length = 10 ∧
      b.callee_saved_regs.length = 6 ∧
      b.shadow_space_size = 0 ∧
      b.red_zone_size = 128 ∧
      b.leaf_proc = true ∧
      b.buf = [] ∧
      (∀ sym, b.symbols_map sym = none) ∧
      b.stack_size = 0) ∧
    (∃ b, new (Except.ok CallingConvention.windowsFastcall) = Except.ok b ∧
      b.gp_param_regs.length = 4 ∧
      b.shadow_space_size = 32 ∧
      b.red_zone_size = 0 ∧
      b.leaf_proc = true ∧
      b.buf = [] ∧
      (∀ sym, b.symbols_map sym = none) ∧
      b.stack_size = 0) ∧
    (∀ name, new (Except.ok (CallingConvention.other name)) =
      Except.error ("unsupported backend: " ++ ("Ok(" ++ name ++ ")"))) := by
  refine ⟨⟨_, rfl, rfl, rfl, rfl, rfl, rfl, rfl, rfl, fun _ => rfl, rfl⟩,
          ⟨_, rfl, rfl, rfl, rfl, rfl, rfl, fun _ => rfl, rfl⟩,
          fun name => rfl⟩

/-- C7: `finalize` always succeeds with an output that ends in the
near-return instruction; the prologue (push RBP; mov RBP, RSP) and the
epilogue (pop RBP) wrap the accumulated body together or are absent
together, never one without the other; the relocation list is empty. -/
theorem c7_finalize_prologue_epilogue (s : X86_64Backend) :
    ∃ P E, finalize s = Except.ok (P ++ s.buf ++ E ++ [Instr.retNear], []) ∧
      ((P = [Instr.pushReg Register.RBP, Instr.movRegReg Register.RBP Register.RSP] ∧
        E = [Instr.popReg Register.RBP]) ∨
       (P = [] ∧ E = [])) := by
  by_cases h : requires_stack_modification s = true
  · refine ⟨[Instr.pushReg Register.RBP, Instr.movRegReg Register.RBP Register.RSP],
      [Instr.popReg Register.RBP], ?_, Or.inl ⟨rfl, rfl⟩⟩
    simp [finalize, h, push_register64bit, mov_register64bit_register64bit,
      pop_register64bit, ret_near]
  · refine ⟨[], [], ?_, Or.inr ⟨rfl, rfl⟩⟩
    simp [finalize, h, ret_near]

/-- C8: `set_symbol_to_lit` appends nothing to the buffer and records
the literal; there is a fixed nonempty instruction sequence `code`
(determined by the value and destination) such that loading the symbol
from any state that records that literal succeeds and changes the state
only by appending `code` to the buffer — in particular the symbols map
is untouched, so an immediate load after binding succeeds and every
repeated load appends the identical sequence. -/
theorem c8_bind_then_load (s : X86_64Backend) (sym : Symbol) (v : Int) (dst : Register) :
    (set_symbol_to_lit s sym (Literal.int v)).buf = s.buf ∧
    (set_symbol_to_lit s sym (Literal.int v)).symbols_map sym =
      some (SymbolStorage.literal (Literal.int v)) ∧
    ∃ code : List Instr, code ≠ [] ∧
      ∀ t : X86_64Backend,
        t.symbols_map sym = some (SymbolStorage.literal (Literal.int v)) →
        load_symbol t dst sym = ({ t with buf := t.buf ++ code }, Except.ok ()) := by
  refine ⟨rfl, by simp [set_symbol_to_lit], ?_⟩
  by_cases h : v ≤ 2147483647 ∧ -2147483648 ≤ v
  · refine ⟨[Instr.movImm32 dst v], by simp, fun t ht => ?_⟩
    unfold load_symbol
    rw [ht]
    dsimp only
    rw [if_pos h]
    rfl
  · refine ⟨[Instr.movImm64 dst v], by simp, fun t ht => ?_⟩
    unfold load_symbol
    rw [ht]
    dsimp only
    rw [if_neg h]
    rfl

/-- C9: `reset` empties the symbols map and the buffer and leaves the
calling-convention data (parameter-register order, caller-saved set,
callee-saved set, shadow-space size, red-zone size) unchanged. -/
theorem c9_reset_clears_and_keeps_convention (s : X86_64Backend) :
    (∀ sym, (reset s).symbols_map sym = none) ∧
    (reset s).buf = [] ∧
    (reset s).gp_param_regs = s.gp_param_regs ∧
    (reset s).caller_saved_regs = s.caller_saved_regs ∧
    (reset s).callee_saved_regs = s.callee_saved_regs ∧
    (reset s).shadow_space_size = s.shadow_space_size ∧
    (reset s).red_zone_size = s.red_zone_size :=
  ⟨fun _ => rfl, rfl, rfl, rfl, rfl, rfl, rfl⟩

/-- C10: `reset` also leaves `leaf_proc`, `stack_size` and the liveness
map (`last_seen_map`) unchanged, so the frame-necessity decision
(`requires_stack_modification`) after a reset is the same as before
it. -/
theorem c10_reset_keeps_frame_state (s : X86_64Backend) :
    (reset s).leaf_proc = s.leaf_proc ∧
    (reset s).stack_size = s.stack_size ∧
    (reset s).last_seen_map = s.last_seen_map ∧
    requires_stack_modification (reset s) = requires_stack_modification s :=
  ⟨rfl, rfl, rfl, rfl⟩

end X8664
